import Mathlib

/-!
Verification of the Geo-Quest checkpoint generation and AR proximity logic.

The definitions below are a shallow embedding of the TypeScript sources:
  - server/routes.ts        (checkpoint generation, POST /api/game/generate)
  - server/storage.ts       (getRandomQuestions, getSettings)
  - client ARView           (bearing / relative-bearing / collection gate,
                             roving drift tick)
  - client Game page        (sortedCheckpoints: dedupe + sort)

Ambient randomness (Math.random) is modelled by explicit streams of real
numbers; the geolib getDistance primitive is an abstract parameter
(dist : GeoPoint -> GeoPoint -> Real), since it is an external library
collaborator shared by generator and evaluator.
-/

namespace GeoQuest

/-- A latitude/longitude pair, degrees (JS numbers modelled as reals). -/
structure GeoPoint where
  lat : ℝ
  lng : ℝ

/-- A trivia question row, as sampled by storage.getRandomQuestions. -/
structure Question where
  id : ℕ
  question : String
  options : List String
  points : ℤ

/-- The checkpoint payload returned by POST /api/game/generate
    (routes.ts, object literal in the map over randomQuestions). -/
structure Checkpoint where
  id : ℕ
  lat : ℝ
  lng : ℝ
  question : String
  options : List String
  points : ℤ
  collected : Bool
  isCustom : Bool
  isRoving : Bool

/-- An admin-placed custom checkpoint joined with its question
    (storage.getCustomCheckpoints). -/
structure CustomCheckpoint where
  lat : ℝ
  lng : ℝ
  question : Question

/-- routes.ts: const minDistanceFromCenter = 7 (meters). -/
def minDistanceFromCenter : ℝ := 7

/-- routes.ts: const minDistanceBetweenCheckpoints = 7 (meters). -/
def minDistanceBetweenCheckpoints : ℝ := 7

/-- routes.ts: the retry loop bound, while (attempts < 50). -/
def maxAttemptsPerPoint : ℕ := 50

/-- storage.getRandomQuestions: SELECT ... ORDER BY RANDOM() LIMIT count.
    The db argument stands for the (randomly ordered) questions table, so the
    SQL LIMIT is List.take: the result has min(count, db.length) elements. -/
def getRandomQuestions (db : List Question) (count : ℕ) : List Question :=
  db.take count

/-- routes.ts, loop body: one candidate position from two Math.random draws
    u and t01: r = (7 + sqrt(u) * (radius - 7)) / 111000,
    t = 2 pi t01, x = r cos t, y = r sin t / cos(lat * pi / 180),
    candidate = (lat + x, lng + y). -/
noncomputable def candidate (center : GeoPoint) (radius u t01 : ℝ) : GeoPoint :=
  let r := (minDistanceFromCenter + Real.sqrt u * (radius - minDistanceFromCenter)) / 111000
  let t := 2 * Real.pi * t01
  let x := r * Real.cos t
  let y := r * Real.sin t / Real.cos (center.lat * Real.pi / 180)
  ⟨center.lat + x, center.lng + y⟩

/-- routes.ts, loop body: the acceptance test
    distFromStart >= minDistanceFromCenter && distFromStart <= radius
    && !generatedCoords.some(c => getDistance(p, c) < minDistanceBetweenCheckpoints). -/
def validCandidate (dist : GeoPoint → GeoPoint → ℝ) (center : GeoPoint) (radius : ℝ)
    (placed : List GeoPoint) (p : GeoPoint) : Prop :=
  minDistanceFromCenter ≤ dist center p ∧ dist center p ≤ radius ∧
    ¬ ∃ c ∈ placed, dist p c < minDistanceBetweenCheckpoints

/-- routes.ts, loop body: the candidate drawn on attempt number j, reading
    the two Math.random calls of that iteration from the stream rng. -/
noncomputable def attemptCandidate (center : GeoPoint) (radius : ℝ) (rng : ℕ → ℝ × ℝ)
    (j : ℕ) : GeoPoint :=
  candidate center radius (rng j).1 (rng j).2

open Classical in
/-- routes.ts: the while (attempts < 50) retry loop, started at a given
    attempt counter. Each iteration draws a fresh candidate from the random
    stream rng; a valid candidate breaks the loop, otherwise the loop retries
    while attempts + 1 < 50, and on exhaustion the last candidate is kept. -/
noncomputable def placeFrom (dist : GeoPoint → GeoPoint → ℝ) (center : GeoPoint) (radius : ℝ)
    (placed : List GeoPoint) (rng : ℕ → ℝ × ℝ) (attempts : ℕ) : GeoPoint :=
  let p := attemptCandidate center radius rng attempts
  if validCandidate dist center radius placed p then p
  else if attempts + 1 < maxAttemptsPerPoint then
    placeFrom dist center radius placed rng (attempts + 1)
  else p
  termination_by maxAttemptsPerPoint - attempts
  decreasing_by simp only [maxAttemptsPerPoint] at *; omega

/-- routes.ts: the coordinates finally kept for one generated checkpoint
    (the whole retry loop, starting at attempts = 0). -/
noncomputable def placePoint (dist : GeoPoint → GeoPoint → ℝ) (center : GeoPoint) (radius : ℝ)
    (placed : List GeoPoint) (rng : ℕ → ℝ × ℝ) : GeoPoint :=
  placeFrom dist center radius placed rng 0

/-- routes.ts: randomQuestions.map((q, index) => ...), threading the mutable
    generatedCoords accumulator: point index i is placed against every
    previously placed point, then pushed before the next index runs.
    rng gives each point index its own stream of Math.random pairs. -/
noncomputable def generateLoop (dist : GeoPoint → GeoPoint → ℝ) (center : GeoPoint) (radius : ℝ)
    (count : ℕ) (rng : ℕ → ℕ → ℝ × ℝ) : ℕ → List Question → List GeoPoint → List Checkpoint
  | _, [], _ => []
  | i, q :: rest, placed =>
    let p := placePoint dist center radius placed (rng i)
    { id := q.id, lat := p.lat, lng := p.lng, question := q.question, options := q.options,
      points := if count ≤ i then q.points * 2 else q.points,
      collected := false, isCustom := false,
      isRoving := decide (count ≤ i) }
      :: generateLoop dist center radius count rng (i + 1) rest (placed ++ [p])

/-- routes.ts: the customCheckpoints.map(cp => ...) payload. -/
def customToCheckpoint (cp : CustomCheckpoint) : Checkpoint :=
  { id := cp.question.id, lat := cp.lat, lng := cp.lng, question := cp.question.question,
    options := cp.question.options, points := cp.question.points,
    collected := false, isCustom := true, isRoving := false }

/-- routes.ts, POST /api/game/generate: totalCount = count + rovingCount,
    randomQuestions = getRandomQuestions(totalCount), and the response is
    the generated checkpoints followed by the custom ones. -/
noncomputable def generateResponse (dist : GeoPoint → GeoPoint → ℝ) (center : GeoPoint)
    (radius : ℝ) (count rovingCount : ℕ) (db : List Question)
    (custom : List CustomCheckpoint) (rng : ℕ → ℕ → ℝ × ℝ) : List Checkpoint :=
  generateLoop dist center radius count rng 0 (getRandomQuestions db (count + rovingCount)) []
    ++ custom.map customToCheckpoint

/-- geolib toRad: degrees to radians. -/
noncomputable def toRad (x : ℝ) : ℝ := x * Real.pi / 180

/-- geolib toDeg: radians to degrees. -/
noncomputable def toDeg (x : ℝ) : ℝ := x * 180 / Real.pi

/-- JS Math.atan2(y, x), as the argument of the complex number x + y i,
    with range (-pi, pi]. -/
noncomputable def atan2 (y x : ℝ) : ℝ := Complex.arg ⟨x, y⟩

/-- The JS remainder a % 360. JS % truncates toward zero; every dividend fed
    to it below is of the form b + 360 with b in (-180, 180], hence positive,
    where truncation and floor agree. -/
noncomputable def jsMod360 (a : ℝ) : ℝ := a - 360 * ⌊a / 360⌋

/-- geolib: the final bearing normalization (toDeg(...) + 360) % 360. -/
noncomputable def norm360 (x : ℝ) : ℝ := jsMod360 (x + 360)

/-- geolib getRhumbLineBearing (the bearing primitive imported and used by
    ARView.getCheckpointScreenPosition): the constant rhumb-line course from
    origin to dest, from the log-tangent latitude stretch and the longitude
    difference, normalized to [0, 360). -/
noncomputable def getRhumbLineBearing (origin dest : GeoPoint) : ℝ :=
  let diffLon0 := toRad dest.lng - toRad origin.lng
  let diffPhi := Real.log (Real.tan (toRad dest.lat / 2 + Real.pi / 4) /
      Real.tan (toRad origin.lat / 2 + Real.pi / 4))
  let diffLon := if |diffLon0| > Real.pi then
      (if diffLon0 > 0 then (Real.pi * 2 - diffLon0) * (-1) else Real.pi * 2 + diffLon0)
    else diffLon0
  norm360 (toDeg (atan2 diffLon diffPhi))

/-- Modelled from the spec: the initial great-circle compass bearing from
    origin to dest, 0-360 degrees (standard formula
    atan2(sin dl cos phi2, cos phi1 sin phi2 - sin phi1 cos phi2 cos dl));
    the repository itself never computes a great-circle bearing, this is the
    comparison point named by the specification. -/
noncomputable def greatCircleBearing (origin dest : GeoPoint) : ℝ :=
  let phi1 := toRad origin.lat
  let phi2 := toRad dest.lat
  let dl := toRad (dest.lng - origin.lng)
  norm360 (toDeg (atan2 (Real.sin dl * Real.cos phi2)
    (Real.cos phi1 * Real.sin phi2 - Real.sin phi1 * Real.cos phi2 * Real.cos dl)))

/-- ARView.getCheckpointScreenPosition, first normalization loop:
    while (relativeBearing > 180) relativeBearing -= 360. -/
noncomputable def normHigh (x : ℝ) : ℝ :=
  if x > 180 then normHigh (x - 360) else x
  termination_by (⌈(x - 180) / 360⌉).toNat
  decreasing_by
    have hx : (0 : ℝ) < (x - 180) / 360 := by
      apply div_pos (by linarith) (by norm_num)
    have h1 : 0 < ⌈(x - 180) / 360⌉ := Int.ceil_pos.mpr hx
    have h2 : ⌈(x - 360 - 180) / 360⌉ = ⌈(x - 180) / 360⌉ - 1 := by
      rw [show (x - 360 - 180) / 360 = (x - 180) / 360 - 1 by ring, Int.ceil_sub_one]
    simp only [h2]
    omega

/-- ARView.getCheckpointScreenPosition, second normalization loop:
    while (relativeBearing < -180) relativeBearing += 360. -/
noncomputable def normLow (x : ℝ) : ℝ :=
  if x < -180 then normLow (x + 360) else x
  termination_by (⌈(-180 - x) / 360⌉).toNat
  decreasing_by
    have hx : (0 : ℝ) < (-180 - x) / 360 := by
      apply div_pos (by linarith) (by norm_num)
    have h1 : 0 < ⌈(-180 - x) / 360⌉ := Int.ceil_pos.mpr hx
    have h2 : ⌈(-180 - (x + 360)) / 360⌉ = ⌈(-180 - x) / 360⌉ - 1 := by
      rw [show (-180 - (x + 360)) / 360 = (-180 - x) / 360 - 1 by ring, Int.ceil_sub_one]
    simp only [h2]
    omega

/-- ARView.getCheckpointScreenPosition: relativeBearing = bearing - heading,
    then the two normalization loops in source order. -/
noncomputable def normalizeRelativeBearing (bearing heading : ℝ) : ℝ :=
  normLow (normHigh (bearing - heading))

/-- ARView: nearbyCheckpoints = checkpoints.filter(cp => dist < 100), where
    dist abstracts the per-checkpoint distance value
    ((cp as any).distance ?? getDistance(user, cp)). -/
def nearbyCheckpoints (dist : Checkpoint → ℚ) (cps : List Checkpoint) : List Checkpoint :=
  cps.filter (fun cp => dist cp < 100)

/-- ARView: the onClick collection gate, pos.distance < 20. -/
def collectGate (d : ℚ) : Bool := d < 20

/-- ARView roving interval: const drift = 0.00001. -/
def drift : ℝ := 0.00001

/-- ARView roving interval, per-checkpoint body: collected or non-roving
    checkpoints are returned as-is, roving uncollected ones get lat and lng
    perturbed independently by (random() - 0.5) * drift via object spread. -/
noncomputable def tickOne (r1 r2 : ℝ) (cp : Checkpoint) : Checkpoint :=
  if !cp.isRoving || cp.collected then cp
  else { cp with lat := cp.lat + (r1 - 0.5) * drift, lng := cp.lng + (r2 - 0.5) * drift }

/-- ARView roving interval: prev.map(cp => ...), one pair of Math.random
    draws per updated checkpoint, modelled as a per-index stream. -/
noncomputable def rovingTick (rnd : ℕ → ℝ × ℝ) (cps : List Checkpoint) : List Checkpoint :=
  cps.mapIdx (fun i cp => tickOne (rnd i).1 (rnd i).2 cp)

/-- A checkpoint with its derived distance field, as built by the Game page
    sortedCheckpoints useMemo ({ ...cp, distance: dist }). -/
structure Located where
  cp : Checkpoint
  distance : ℚ

/-- JS Map.set semantics on an association list: overwriting an existing key
    keeps its original position, a new key is appended. -/
def mapInsert (m : List (ℕ × Checkpoint)) (k : ℕ) (v : Checkpoint) : List (ℕ × Checkpoint) :=
  if m.any (fun p => p.1 = k) then
    m.map (fun p => if p.1 = k then (k, v) else p)
  else m ++ [(k, v)]

/-- Game page sortedCheckpoints, dedupe step: checkpoints.forEach(cp =>
    map.set(cp.id, cp)); Array.from(map.values()). -/
def dedupeById (cps : List Checkpoint) : List Checkpoint :=
  (cps.foldl (fun m cp => mapInsert m cp.id cp) []).map Prod.snd

/-- Game page sortedCheckpoints, comparator: collected sorts after
    uncollected, ties broken ascending by distance (a before b exactly when
    the JS comparator returns a value <= 0). -/
def checkpointLE (a b : Located) : Bool :=
  if a.cp.collected && !b.cp.collected then false
  else if !a.cp.collected && b.cp.collected then true
  else a.distance ≤ b.distance

/-- Game page sortedCheckpoints: dedupe by id, attach distances, then sort
    with the comparator (JS sort is stable, as is mergeSort). -/
def sortedCheckpoints (dist : Checkpoint → ℚ) (cps : List Checkpoint) : List Located :=
  ((dedupeById cps).map (fun cp => ⟨cp, dist cp⟩)).mergeSort checkpointLE

/-- Concrete checkpoints for the sort-order test fixture of the spec:
    id 1 uncollected, id 2 collected, id 3 uncollected. -/
def exampleCps : List Checkpoint :=
  [ { id := 1, lat := 0, lng := 0, question := "a", options := [], points := 10,
      collected := false, isCustom := false, isRoving := false },
    { id := 2, lat := 0, lng := 0, question := "b", options := [], points := 10,
      collected := true, isCustom := false, isRoving := false },
    { id := 3, lat := 0, lng := 0, question := "c", options := [], points := 10,
      collected := false, isCustom := false, isRoving := false } ]

/-- Distances for the sort-order test fixture: 50, 10 and 30 meters. -/
def exampleDist (cp : Checkpoint) : ℚ :=
  if cp.id = 1 then 50 else if cp.id = 2 then 10 else 30

/-- A concrete roving, uncollected checkpoint (used to instantiate the
    roving-tick contract). -/
def sampleRoving : Checkpoint :=
  { id := 1, lat := 0, lng := 0, question := "q", options := [], points := 10,
    collected := false, isCustom := false, isRoving := true }

theorem placeFrom_spec (dist : GeoPoint → GeoPoint → ℝ) (center : GeoPoint) (radius : ℝ)
    (placed : List GeoPoint) (rng : ℕ → ℝ × ℝ) :
    ∀ (n a : ℕ), n = maxAttemptsPerPoint - a → a < maxAttemptsPerPoint →
      (∃ k, a ≤ k ∧ k < maxAttemptsPerPoint ∧
        validCandidate dist center radius placed (attemptCandidate center radius rng k) ∧
        (∀ j, a ≤ j → j < k →
          ¬ validCandidate dist center radius placed (attemptCandidate center radius rng j)) ∧
        placeFrom dist center radius placed rng a = attemptCandidate center radius rng k)
      ∨ ((∀ j, a ≤ j → j < maxAttemptsPerPoint →
          ¬ validCandidate dist center radius placed (attemptCandidate center radius rng j)) ∧
        placeFrom dist center radius placed rng a
          = attemptCandidate center radius rng (maxAttemptsPerPoint - 1)) := by
  intro n
  induction n with
  | zero =>
    intro a hn ha
    simp only [maxAttemptsPerPoint] at hn ha
    omega
  | succ m ih =>
    intro a hn ha
    rw [placeFrom]
    split_ifs with hvalid hmore
    · exact Or.inl ⟨a, le_refl a, ha, hvalid, fun j hj hj2 => absurd hj2 (by omega), rfl⟩
    · rcases ih (a + 1) (by simp only [maxAttemptsPerPoint] at *; omega) hmore with
        ⟨k, hk1, hk2, hk3, hk4, hk5⟩ | ⟨hall, heq⟩
      · refine Or.inl ⟨k, by omega, hk2, hk3, ?_, hk5⟩
        intro j hj hjk
        rcases Nat.eq_or_lt_of_le hj with rfl | hj1
        · exact hvalid
        · exact hk4 j hj1 hjk
      · refine Or.inr ⟨?_, heq⟩
        intro j hj hj2
        rcases Nat.eq_or_lt_of_le hj with rfl | hj1
        · exact hvalid
        · exact hall j hj1 hj2
    · have haeq : a = maxAttemptsPerPoint - 1 := by
        simp only [maxAttemptsPerPoint] at *; omega
      refine Or.inr ⟨?_, by rw [haeq]⟩
      intro j hj hj2
      have : j = a := by simp only [maxAttemptsPerPoint] at *; omega
      rw [this]
      exact hvalid

/-- C2: for every generated point, the retry loop inspects at most 50
    candidates (maxAttemptsPerPoint): the computation always terminates and
    returns the first candidate satisfying the clearance constraints if one
    appears among attempts 0..49, and when the whole budget is exhausted with
    no valid candidate it returns the last-generated (50th) candidate even
    though that candidate violates the constraints; no error is ever raised
    for geometric impossibility. -/
theorem placePoint_retry_spec (dist : GeoPoint → GeoPoint → ℝ) (center : GeoPoint)
    (radius : ℝ) (placed : List GeoPoint) (rng : ℕ → ℝ × ℝ) :
    (∃ k, k < maxAttemptsPerPoint ∧
      validCandidate dist center radius placed (attemptCandidate center radius rng k) ∧
      (∀ j, j < k →
        ¬ validCandidate dist center radius placed (attemptCandidate center radius rng j)) ∧
      placePoint dist center radius placed rng = attemptCandidate center radius rng k)
    ∨ ((∀ j, j < maxAttemptsPerPoint →
        ¬ validCandidate dist center radius placed (attemptCandidate center radius rng j)) ∧
      placePoint dist center radius placed rng
        = attemptCandidate center radius rng (maxAttemptsPerPoint - 1)) := by
  rcases placeFrom_spec dist center radius placed rng maxAttemptsPerPoint 0 rfl
      (by simp [maxAttemptsPerPoint]) with ⟨k, _, hk2, hk3, hk4, hk5⟩ | ⟨hall, heq⟩
  · exact Or.inl ⟨k, hk2, hk3, fun j hj => hk4 j (Nat.zero_le j) hj, hk5⟩
  · exact Or.inr ⟨fun j hj => hall j (Nat.zero_le j) hj, heq⟩

/-- The lat/lng coordinates of a checkpoint list, in order (the contents of
    the generatedCoords accumulator after the map in routes.ts has run). -/
def coords (cps : List Checkpoint) : List GeoPoint :=
  cps.map (fun cp => ⟨cp.lat, cp.lng⟩)

/-- Witness for C2 at a concrete configuration (distance primitive constant 7,
    radius 500, empty batch, constant random stream). -/
theorem placePoint_retry_spec_witness :
    (∃ k, k < maxAttemptsPerPoint ∧
      validCandidate (fun _ _ => 7) ⟨0, 0⟩ 500 []
        (attemptCandidate ⟨0, 0⟩ 500 (fun _ => (0, 0)) k) ∧
      (∀ j, j < k →
        ¬ validCandidate (fun _ _ => 7) ⟨0, 0⟩ 500 []
          (attemptCandidate ⟨0, 0⟩ 500 (fun _ => (0, 0)) j)) ∧
      placePoint (fun _ _ => 7) ⟨0, 0⟩ 500 [] (fun _ => (0, 0))
        = attemptCandidate ⟨0, 0⟩ 500 (fun _ => (0, 0)) k)
    ∨ ((∀ j, j < maxAttemptsPerPoint →
        ¬ validCandidate (fun _ _ => 7) ⟨0, 0⟩ 500 []
          (attemptCandidate ⟨0, 0⟩ 500 (fun _ => (0, 0)) j)) ∧
      placePoint (fun _ _ => 7) ⟨0, 0⟩ 500 [] (fun _ => (0, 0))
        = attemptCandidate ⟨0, 0⟩ 500 (fun _ => (0, 0)) (maxAttemptsPerPoint - 1)) :=
  placePoint_retry_spec (fun _ _ => 7) ⟨0, 0⟩ 500 [] (fun _ => (0, 0))

theorem generateLoop_length (dist : GeoPoint → GeoPoint → ℝ) (center : GeoPoint) (radius : ℝ)
    (count : ℕ) (rng : ℕ → ℕ → ℝ × ℝ) :
    ∀ (qs : List Question) (i : ℕ) (placed : List GeoPoint),
      (generateLoop dist center radius count rng i qs placed).length = qs.length := by
  intro qs
  induction qs with
  | nil => intro i placed; simp [generateLoop]
  | cons q rest ih => intro i placed; simp [generateLoop, ih]

theorem generateLoop_isCustom_false (dist : GeoPoint → GeoPoint → ℝ) (center : GeoPoint)
    (radius : ℝ) (count : ℕ) (rng : ℕ → ℕ → ℝ × ℝ) :
    ∀ (qs : List Question) (i : ℕ) (placed : List GeoPoint),
      ∀ cp ∈ generateLoop dist center radius count rng i qs placed, cp.isCustom = false := by
  intro qs
  induction qs with
  | nil => intro i placed cp h; simp [generateLoop] at h
  | cons q rest ih =>
    intro i placed cp h
    simp only [generateLoop, List.mem_cons] at h
    rcases h with h | h
    · subst h; rfl
    · exact ih (i + 1) _ cp h

theorem generateLoop_coords_getElem (dist : GeoPoint → GeoPoint → ℝ) (center : GeoPoint)
    (radius : ℝ) (count : ℕ) (rng : ℕ → ℕ → ℝ × ℝ) :
    ∀ (qs : List Question) (i : ℕ) (placed : List GeoPoint) (j : ℕ), j < qs.length →
      (coords (generateLoop dist center radius count rng i qs placed))[j]?
        = some (placePoint dist center radius
            (placed ++ (coords (generateLoop dist center radius count rng i qs placed)).take j)
            (rng (i + j))) := by
  intro qs
  induction qs with
  | nil => intro i placed j hj; simp at hj
  | cons q rest ih =>
    intro i placed j hj
    match j with
    | 0 =>
      simp [generateLoop, coords]
    | j' + 1 =>
      have hj' : j' < rest.length := by simpa using hj
      have step := ih (i + 1) (placed ++ [placePoint dist center radius placed (rng i)]) j' hj'
      have hidx : i + 1 + j' = i + (j' + 1) := by omega
      simp only [List.append_assoc, List.singleton_append, hidx] at step
      simp only [generateLoop, coords, List.map_cons, List.getElem?_cons_succ,
        List.take_succ_cons] at step ⊢
      exact step

/-- C1: for every generation request, whenever the question store can supply
    totalCount = count + rovingCount questions, the generate response contains
    exactly totalCount generated (non-custom) checkpoints, for every distance
    function, radius and random stream, i.e. regardless of geometric
    feasibility of the radius/count/clearance combination. -/
theorem generate_count_exact (dist : GeoPoint → GeoPoint → ℝ) (center : GeoPoint)
    (radius : ℝ) (count rovingCount : ℕ) (db : List Question)
    (custom : List CustomCheckpoint) (rng : ℕ → ℕ → ℝ × ℝ)
    (h : count + rovingCount ≤ db.length) :
    ((generateResponse dist center radius count rovingCount db custom rng).filter
      (fun cp => !cp.isCustom)).length = count + rovingCount := by
  unfold generateResponse
  rw [List.filter_append]
  have h1 : (generateLoop dist center radius count rng 0
      (getRandomQuestions db (count + rovingCount)) []).filter (fun cp => !cp.isCustom)
      = generateLoop dist center radius count rng 0
        (getRandomQuestions db (count + rovingCount)) [] := by
    apply List.filter_eq_self.mpr
    intro cp hcp
    have := generateLoop_isCustom_false dist center radius count rng _ 0 [] cp hcp
    simp [this]
  have h2 : (custom.map customToCheckpoint).filter (fun cp => !cp.isCustom) = [] := by
    apply List.filter_eq_nil_iff.mpr
    intro cp hcp
    rcases List.mem_map.mp hcp with ⟨c, _, rfl⟩
    simp [customToCheckpoint]
  rw [h1, h2]
  simp [generateLoop_length, getRandomQuestions, List.length_take, Nat.min_eq_left h]

/-- Witness for C1 at a concrete request: one question, count 1, roving 0. -/
theorem generate_count_exact_witness :
    1 + 0 ≤ ([({ id := 1, question := "q1", options := [], points := 10 } : Question)]).length ∧
    ((generateResponse (fun _ _ => 0) ⟨0, 0⟩ 500 1 0
        [({ id := 1, question := "q1", options := [], points := 10 } : Question)] []
        (fun _ _ => (0, 0))).filter (fun cp => !cp.isCustom)).length = 1 + 0 :=
  ⟨by decide, generate_count_exact (fun _ _ => 0) ⟨0, 0⟩ 500 1 0 _ [] (fun _ _ => (0, 0))
    (by decide)⟩

/-- C3 (amended): each generated point follows the per-point procedure:
    (1) the planar offset has radial length r with
    r = (minClearance + sqrt(u) * (radiusMeters - minClearance)) / 111000 degrees
    (stated squared, after undoing the cosine-of-latitude correction on the
    longitude component); (2) a candidate passes the validation check if and
    only if its distance from the center lies in
    [minClearanceFromCenter, radiusMeters] and its distance to every
    previously accepted point of the batch is at least (not strictly greater
    than) minClearanceBetweenPoints; (3) every accepted point, exhaustion
    fallbacks included, is recorded in the batch list before the next point is
    generated: point j is placed against exactly the first j accepted
    coordinates. -/
theorem generate_per_point_procedure (dist : GeoPoint → GeoPoint → ℝ) (center : GeoPoint)
    (radius : ℝ) (count : ℕ) (rng : ℕ → ℕ → ℝ × ℝ) :
    (∀ u t01 : ℝ, Real.cos (center.lat * Real.pi / 180) ≠ 0 →
      ((candidate center radius u t01).lat - center.lat) ^ 2 +
        (((candidate center radius u t01).lng - center.lng) *
          Real.cos (center.lat * Real.pi / 180)) ^ 2
        = ((minDistanceFromCenter + Real.sqrt u * (radius - minDistanceFromCenter)) / 111000) ^ 2)
    ∧ (∀ (placed : List GeoPoint) (p : GeoPoint),
      validCandidate dist center radius placed p ↔
        (minDistanceFromCenter ≤ dist center p ∧ dist center p ≤ radius ∧
          ∀ c ∈ placed, minDistanceBetweenCheckpoints ≤ dist p c))
    ∧ (∀ (qs : List Question) (j : ℕ), j < qs.length →
      (coords (generateLoop dist center radius count rng 0 qs []))[j]?
        = some (placePoint dist center radius
            ((coords (generateLoop dist center radius count rng 0 qs [])).take j) (rng j))) := by
  refine ⟨?_, ?_, ?_⟩
  · intro u t01 hc
    simp only [candidate]
    rw [add_sub_cancel_left, add_sub_cancel_left, div_mul_cancel₀ _ hc]
    linear_combination
      ((minDistanceFromCenter + Real.sqrt u * (radius - minDistanceFromCenter)) / 111000) ^ 2 *
        Real.sin_sq_add_cos_sq (2 * Real.pi * t01)
  · intro placed p
    unfold validCandidate
    constructor
    · rintro ⟨h1, h2, h3⟩
      push_neg at h3
      exact ⟨h1, h2, h3⟩
    · rintro ⟨h1, h2, h3⟩
      refine ⟨h1, h2, ?_⟩
      push_neg
      exact h3
  · intro qs j hj
    have := generateLoop_coords_getElem dist center radius count rng qs 0 [] j hj
    simpa using this

/-- Witness for C3 at center latitude 0 (cosine correction 1, nonzero) and a
    one-question batch. -/
theorem generate_per_point_procedure_witness :
    Real.cos ((0 : ℝ) * Real.pi / 180) ≠ 0 ∧
    ((candidate ⟨0, 0⟩ 500 0 0).lat - (0 : ℝ)) ^ 2 +
      (((candidate ⟨0, 0⟩ 500 0 0).lng - (0 : ℝ)) * Real.cos ((0 : ℝ) * Real.pi / 180)) ^ 2
      = ((minDistanceFromCenter + Real.sqrt 0 * (500 - minDistanceFromCenter)) / 111000) ^ 2 ∧
    (0 : ℕ) < ([({ id := 1, question := "q1", options := [], points := 10 } : Question)]).length ∧
    (coords (generateLoop (fun _ _ => 0) ⟨0, 0⟩ 500 1 (fun _ _ => (0, 0)) 0
        [({ id := 1, question := "q1", options := [], points := 10 } : Question)] []))[0]?
      = some (placePoint (fun _ _ => 0) ⟨0, 0⟩ 500
          ((coords (generateLoop (fun _ _ => 0) ⟨0, 0⟩ 500 1 (fun _ _ => (0, 0)) 0
            [({ id := 1, question := "q1", options := [], points := 10 } : Question)] [])).take 0)
          ((fun _ _ => ((0 : ℝ), (0 : ℝ))) 0)) := by
  have hc : Real.cos ((0 : ℝ) * Real.pi / 180) ≠ 0 := by
    rw [show (0 : ℝ) * Real.pi / 180 = 0 by ring, Real.cos_zero]
    norm_num
  refine ⟨hc, ?_, by decide, ?_⟩
  · have h := (generate_per_point_procedure (fun _ _ => 0) ⟨0, 0⟩ 500 1
      (fun _ _ => (0, 0))).1 0 0 hc
    simpa using h
  · have h := (generate_per_point_procedure (fun _ _ => 0) ⟨0, 0⟩ 500 1
      (fun _ _ => (0, 0))).2.2
      [({ id := 1, question := "q1", options := [], points := 10 } : Question)] 0 (by decide)
    simpa using h

/-- C3 counterexample to the strict reading: with the distance primitive
    reporting exactly 7 m (reachable, since geolib getDistance rounds to whole
    meters), a candidate whose distance to an already-placed point equals
    minClearanceBetweenPoints passes validation and is accepted on the very
    first attempt, although that distance does not strictly exceed the
    clearance. -/
theorem accept_at_exact_clearance :
    validCandidate (fun _ _ => 7) ⟨0, 0⟩ 500 [⟨1, 1⟩]
      (attemptCandidate ⟨0, 0⟩ 500 (fun _ => (0, 0)) 0) ∧
    placePoint (fun _ _ => 7) ⟨0, 0⟩ 500 [⟨1, 1⟩] (fun _ => (0, 0))
      = attemptCandidate ⟨0, 0⟩ 500 (fun _ => (0, 0)) 0 ∧
    ¬ minDistanceBetweenCheckpoints
        < (fun _ _ => (7 : ℝ)) (attemptCandidate ⟨0, 0⟩ 500 (fun _ => (0, 0)) 0)
          (⟨1, 1⟩ : GeoPoint) := by
  have hvalid : validCandidate (fun _ _ => 7) ⟨0, 0⟩ 500 [⟨1, 1⟩]
      (attemptCandidate ⟨0, 0⟩ 500 (fun _ => (0, 0)) 0) := by
    refine ⟨le_refl _, by norm_num [minDistanceFromCenter], ?_⟩
    rintro ⟨c, _, hlt⟩
    simp [minDistanceBetweenCheckpoints] at hlt
  refine ⟨hvalid, ?_, by simp [minDistanceBetweenCheckpoints]⟩
  unfold placePoint
  rw [placeFrom]
  simp only [if_pos hvalid]

theorem generateLoop_payload (dist : GeoPoint → GeoPoint → ℝ) (center : GeoPoint)
    (radius : ℝ) (count : ℕ) (rng : ℕ → ℕ → ℝ × ℝ) :
    ∀ (qs : List Question) (i : ℕ) (placed : List GeoPoint) (j : ℕ), j < qs.length →
      ∃ cp q, (generateLoop dist center radius count rng i qs placed)[j]? = some cp ∧
        qs[j]? = some q ∧
        cp.id = q.id ∧ cp.question = q.question ∧ cp.options = q.options ∧
        cp.points = (if count ≤ i + j then q.points * 2 else q.points) ∧
        cp.isRoving = decide (count ≤ i + j) ∧
        cp.collected = false ∧ cp.isCustom = false := by
  intro qs
  induction qs with
  | nil => intro i placed j hj; simp at hj
  | cons q rest ih =>
    intro i placed j hj
    match j with
    | 0 =>
      exact ⟨{ id := q.id, lat := (placePoint dist center radius placed (rng i)).lat,
               lng := (placePoint dist center radius placed (rng i)).lng,
               question := q.question, options := q.options,
               points := if count ≤ i then q.points * 2 else q.points,
               collected := false, isCustom := false, isRoving := decide (count ≤ i) },
             q, by simp [generateLoop], by simp, rfl, rfl, rfl, by simp, by simp, rfl, rfl⟩
    | j' + 1 =>
      have hj' : j' < rest.length := by simpa using hj
      rcases ih (i + 1) (placed ++ [placePoint dist center radius placed (rng i)]) j' hj' with
        ⟨cp, qq, h1, h2, h3⟩
      refine ⟨cp, qq, ?_, ?_, ?_⟩
      · simpa [generateLoop] using h1
      · simpa using h2
      · have : i + 1 + j' = i + (j' + 1) := by omega
        rw [this] at h3
        exact h3

/-- C8: when generate is called with count ordinary plus rovingCount extra
    checkpoints, the j-th generated checkpoint takes its payload from the j-th
    sampled question; exactly the indices j >= count are flagged isRoving with
    points doubled relative to the question's base points, while indices
    j < count keep the base points and isRoving = false. -/
theorem generate_roving_payload (dist : GeoPoint → GeoPoint → ℝ) (center : GeoPoint)
    (radius : ℝ) (count rovingCount : ℕ) (db : List Question)
    (custom : List CustomCheckpoint) (rng : ℕ → ℕ → ℝ × ℝ)
    (hdb : count + rovingCount ≤ db.length) :
    ∀ j : ℕ, j < count + rovingCount →
      ∃ cp q,
        (generateResponse dist center radius count rovingCount db custom rng)[j]? = some cp ∧
        (getRandomQuestions db (count + rovingCount))[j]? = some q ∧
        cp.id = q.id ∧ cp.question = q.question ∧ cp.options = q.options ∧
        cp.points = (if count ≤ j then q.points * 2 else q.points) ∧
        cp.isRoving = decide (count ≤ j) ∧
        cp.collected = false ∧ cp.isCustom = false := by
  intro j hj
  have hlen : j < (getRandomQuestions db (count + rovingCount)).length := by
    simp [getRandomQuestions]
    omega
  rcases generateLoop_payload dist center radius count rng
      (getRandomQuestions db (count + rovingCount)) 0 [] j hlen with ⟨cp, q, h1, h2, h3⟩
  refine ⟨cp, q, ?_, h2, by simpa using h3⟩
  unfold generateResponse
  rw [List.getElem?_append_left]
  · exact h1
  · rw [generateLoop_length]
    exact hlen

/-- Witness for C8: one roving question of base points 10 yields a flagged
    checkpoint with points 20 at index 0 (count = 0, rovingCount = 1). -/
theorem generate_roving_payload_witness :
    0 + 1 ≤ ([({ id := 1, question := "q1", options := [], points := 10 } : Question)]).length ∧
    0 < 0 + 1 ∧
    (∃ cp q,
      (generateResponse (fun _ _ => 0) ⟨0, 0⟩ 500 0 1
          [({ id := 1, question := "q1", options := [], points := 10 } : Question)] []
          (fun _ _ => (0, 0)))[0]? = some cp ∧
      (getRandomQuestions
          [({ id := 1, question := "q1", options := [], points := 10 } : Question)] (0 + 1))[0]?
        = some q ∧
      cp.id = q.id ∧ cp.question = q.question ∧ cp.options = q.options ∧
      cp.points = (if 0 ≤ 0 then q.points * 2 else q.points) ∧
      cp.isRoving = decide ((0 : ℕ) ≤ 0) ∧
      cp.collected = false ∧ cp.isCustom = false) :=
  ⟨by decide, by decide,
    generate_roving_payload (fun _ _ => 0) ⟨0, 0⟩ 500 0 1 _ [] (fun _ _ => (0, 0))
      (by decide) 0 (by decide)⟩

theorem norm360_bounds (x : ℝ) : 0 ≤ norm360 x ∧ norm360 x < 360 := by
  unfold norm360 jsMod360
  constructor
  · have h : (⌊(x + 360) / 360⌋ : ℝ) ≤ (x + 360) / 360 := Int.floor_le _
    nlinarith
  · have h : (x + 360) / 360 < ⌊(x + 360) / 360⌋ + 1 := Int.lt_floor_add_one _
    nlinarith

theorem norm360_eq_self {x : ℝ} (h0 : 0 ≤ x) (h1 : x < 360) : norm360 x = x := by
  unfold norm360 jsMod360
  have hf : ⌊(x + 360) / 360⌋ = 1 := by
    rw [Int.floor_eq_iff]
    constructor
    · push_cast
      rw [le_div_iff₀ (by norm_num : (0 : ℝ) < 360)]
      linarith
    · push_cast
      rw [div_lt_iff₀ (by norm_num : (0 : ℝ) < 360)]
      linarith
  rw [hf]
  push_cast
  ring

theorem atan2_of_pos_re {y x : ℝ} (hx : 0 < x) : atan2 y x = Real.arctan (y / x) := by
  unfold atan2
  have h1 : Complex.arg ⟨x, y⟩ < Real.pi / 2 :=
    Complex.arg_lt_pi_div_two_iff.mpr (Or.inl hx)
  have h2 : -(Real.pi / 2) < Complex.arg ⟨x, y⟩ :=
    Complex.neg_pi_div_two_lt_arg_iff.mpr (Or.inl hx)
  have h3 : Real.tan (Complex.arg ⟨x, y⟩) = y / x := Complex.tan_arg ⟨x, y⟩
  rw [← h3, Real.arctan_tan h2 h1]

theorem atan2_pos_zero {y : ℝ} (hy : 0 < y) : atan2 y 0 = Real.pi / 2 :=
  Complex.arg_eq_pi_div_two_iff.mpr ⟨rfl, hy⟩

theorem rhumb_bearing_45 : getRhumbLineBearing ⟨45, 0⟩ ⟨45, 90⟩ = 90 := by
  have hpi := Real.pi_pos
  have hlon : toRad (90 : ℝ) - toRad 0 = Real.pi / 2 := by unfold toRad; ring
  have habs : ¬ |toRad (90 : ℝ) - toRad 0| > Real.pi := by
    rw [hlon, abs_of_nonneg (by linarith)]
    linarith
  have htan : Real.tan (toRad (45 : ℝ) / 2 + Real.pi / 4) ≠ 0 := by
    have h38 : toRad (45 : ℝ) / 2 + Real.pi / 4 = 3 * Real.pi / 8 := by unfold toRad; ring
    rw [h38]
    have hp := Real.tan_pos_of_pos_of_lt_pi_div_two (x := 3 * Real.pi / 8)
      (by linarith) (by linarith)
    linarith
  have hphi : Real.log (Real.tan (toRad (45 : ℝ) / 2 + Real.pi / 4) /
      Real.tan (toRad (45 : ℝ) / 2 + Real.pi / 4)) = 0 := by
    rw [div_self htan, Real.log_one]
  unfold getRhumbLineBearing
  dsimp only
  rw [if_neg habs, hphi, hlon, atan2_pos_zero (by linarith : (0 : ℝ) < Real.pi / 2)]
  have hdeg : toDeg (Real.pi / 2) = 90 := by
    unfold toDeg
    rw [div_eq_iff Real.pi_ne_zero]
    ring
  rw [hdeg]
  exact norm360_eq_self (by norm_num) (by norm_num)

theorem gc_bearing_45 : greatCircleBearing ⟨45, 0⟩ ⟨45, 90⟩
    = Real.arctan (Real.sqrt 2) * 180 / Real.pi := by
  have hpi := Real.pi_pos
  have h90 : toRad ((90 : ℝ) - 0) = Real.pi / 2 := by unfold toRad; ring
  have h45 : toRad (45 : ℝ) = Real.pi / 4 := by unfold toRad; ring
  unfold greatCircleBearing
  dsimp only
  rw [h90, h45, Real.sin_pi_div_two, Real.cos_pi_div_two, Real.cos_pi_div_four,
    Real.sin_pi_div_four]
  have h2 : Real.sqrt 2 * Real.sqrt 2 = 2 := Real.mul_self_sqrt (by norm_num)
  have hy : (1 : ℝ) * (Real.sqrt 2 / 2) = Real.sqrt 2 / 2 := by ring
  have hx : Real.sqrt 2 / 2 * (Real.sqrt 2 / 2) - Real.sqrt 2 / 2 * (Real.sqrt 2 / 2) * 0
      = 1 / 2 := by nlinarith
  rw [hy, hx, atan2_of_pos_re (by norm_num : (0 : ℝ) < 1 / 2)]
  have harg : Real.sqrt 2 / 2 / (1 / 2) = Real.sqrt 2 := by ring
  rw [harg]
  have hgt : 0 < Real.arctan (Real.sqrt 2) := by
    have hm := Real.arctan_strictMono (show (0 : ℝ) < Real.sqrt 2 by positivity)
    rwa [Real.arctan_zero] at hm
  have hv0 : 0 ≤ Real.arctan (Real.sqrt 2) * 180 / Real.pi := by positivity
  have hv1 : Real.arctan (Real.sqrt 2) * 180 / Real.pi < 360 := by
    have h1 : Real.arctan (Real.sqrt 2) < Real.pi / 2 := Real.arctan_lt_pi_div_two _
    rw [div_lt_iff₀ hpi]
    nlinarith
  unfold toDeg
  exact norm360_eq_self hv0 hv1

/-- C4 (amended): the bearing computed by the Proximity and Bearing Evaluator
    is the rhumb-line compass bearing from player to checkpoint (geolib
    getRhumbLineBearing, not the great-circle initial bearing), and it always
    lies in the range [0, 360). -/
theorem bearing_is_rhumb_in_range (p q : GeoPoint) :
    0 ≤ getRhumbLineBearing p q ∧ getRhumbLineBearing p q < 360 := by
  unfold getRhumbLineBearing
  exact norm360_bounds _

/-- C4 counterexample: at player (45, 0) and checkpoint (45, 90) the bearing
    computed by the code equals 90 degrees (rhumb line due east), while the
    initial great-circle compass bearing is arctan(sqrt 2) in degrees, about
    54.7; so the evaluator's bearing is not the great-circle bearing. -/
theorem bearing_not_great_circle :
    getRhumbLineBearing ⟨45, 0⟩ ⟨45, 90⟩ ≠ greatCircleBearing ⟨45, 0⟩ ⟨45, 90⟩ := by
  rw [rhumb_bearing_45, gc_bearing_45]
  have hpi := Real.pi_pos
  have h1 : Real.arctan (Real.sqrt 2) < Real.pi / 2 := Real.arctan_lt_pi_div_two _
  have hlt : Real.arctan (Real.sqrt 2) * 180 / Real.pi < 90 := by
    rw [div_lt_iff₀ hpi]
    nlinarith
  exact (ne_of_lt hlt).symm

theorem normHigh_le (x : ℝ) : normHigh x ≤ 180 := by
  rw [normHigh]
  split_ifs with h
  · exact normHigh_le (x - 360)
  · linarith
  termination_by (⌈(x - 180) / 360⌉).toNat
  decreasing_by
    have hx : (0 : ℝ) < (x - 180) / 360 := div_pos (by linarith) (by norm_num)
    have h1 : 0 < ⌈(x - 180) / 360⌉ := Int.ceil_pos.mpr hx
    have h2 : ⌈(x - 360 - 180) / 360⌉ = ⌈(x - 180) / 360⌉ - 1 := by
      rw [show (x - 360 - 180) / 360 = (x - 180) / 360 - 1 by ring, Int.ceil_sub_one]
    simp only [h2]
    omega

theorem normLow_ge (x : ℝ) : -180 ≤ normLow x := by
  rw [normLow]
  split_ifs with h
  · exact normLow_ge (x + 360)
  · linarith
  termination_by (⌈(-180 - x) / 360⌉).toNat
  decreasing_by
    have hx : (0 : ℝ) < (-180 - x) / 360 := div_pos (by linarith) (by norm_num)
    have h1 : 0 < ⌈(-180 - x) / 360⌉ := Int.ceil_pos.mpr hx
    have h2 : ⌈(-180 - (x + 360)) / 360⌉ = ⌈(-180 - x) / 360⌉ - 1 := by
      rw [show (-180 - (x + 360)) / 360 = (-180 - x) / 360 - 1 by ring, Int.ceil_sub_one]
    simp only [h2]
    omega

theorem normLow_le : ∀ {x : ℝ}, x ≤ 180 → normLow x ≤ 180 := by
  intro x hx
  rw [normLow]
  split_ifs with h
  · exact normLow_le (by linarith)
  · exact hx
  termination_by x => (⌈(-180 - x) / 360⌉).toNat
  decreasing_by
    have hx2 : (0 : ℝ) < (-180 - x) / 360 := div_pos (by linarith) (by norm_num)
    have h1 : 0 < ⌈(-180 - x) / 360⌉ := Int.ceil_pos.mpr hx2
    have h2 : ⌈(-180 - (x + 360)) / 360⌉ = ⌈(-180 - x) / 360⌉ - 1 := by
      rw [show (-180 - (x + 360)) / 360 = (-180 - x) / 360 - 1 by ring, Int.ceil_sub_one]
    simp only [h2]
    omega

/-- C5 (amended): relativeBearing = bearing - heading, normalized by the two
    while loops, always lands in the closed interval [-180, 180]; a raw
    difference of exactly -180 is returned as -180 (not +180), so the
    half-open interval (-180, 180] of the claim is wrong at that boundary. -/
theorem relative_bearing_range (bearing heading : ℝ) :
    -180 ≤ normalizeRelativeBearing bearing heading ∧
      normalizeRelativeBearing bearing heading ≤ 180 := by
  unfold normalizeRelativeBearing
  exact ⟨normLow_ge _, normLow_le (normHigh_le _)⟩

/-- C5 counterexample: with bearing 0 and heading 180 the raw difference is
    exactly -180; both loop guards are strict, so the code returns -180,
    which is not in the claimed interval (-180, 180]. -/
theorem relative_bearing_at_minus180 :
    normalizeRelativeBearing 0 180 = -180 ∧
      normalizeRelativeBearing 0 180 ∉ Set.Ioc (-180 : ℝ) 180 := by
  have h : normalizeRelativeBearing 0 180 = -180 := by
    unfold normalizeRelativeBearing
    rw [show (0 : ℝ) - 180 = -180 by norm_num]
    rw [normHigh, if_neg (by norm_num), normLow, if_neg (by norm_num)]
  refine ⟨h, ?_⟩
  rw [h]
  simp [Set.mem_Ioc]

/-- C6: the cosine-of-latitude correction of the generator offset: at center
    latitude 0 the longitude offset equals the raw planar value r sin t, and
    at center latitude 60 degrees the correction factor is exactly
    1 / cos(60 deg) = 2. -/
theorem cosine_latitude_correction (lng0 radius u t01 : ℝ) :
    (candidate ⟨0, lng0⟩ radius u t01).lng
      = lng0 + ((minDistanceFromCenter + Real.sqrt u * (radius - minDistanceFromCenter)) / 111000)
          * Real.sin (2 * Real.pi * t01) ∧
    (candidate ⟨60, lng0⟩ radius u t01).lng
      = lng0 + ((minDistanceFromCenter + Real.sqrt u * (radius - minDistanceFromCenter)) / 111000)
          * Real.sin (2 * Real.pi * t01) * 2 := by
  constructor
  · simp only [candidate]
    rw [show (0 : ℝ) * Real.pi / 180 = 0 by ring, Real.cos_zero]
    ring
  · simp only [candidate]
    rw [show (60 : ℝ) * Real.pi / 180 = Real.pi / 3 by ring, Real.cos_pi_div_three]
    ring

/-- C7: a checkpoint enters the nearby list iff it is in the input list and
    its distance is strictly below 100 m; the tap gate opens iff the distance
    is strictly below 20 m, so distance 19.9 is collectible and distance
    exactly 20.0 is not; the two thresholds are independent constants. -/
theorem proximity_thresholds (dist : Checkpoint → ℚ) (cps : List Checkpoint)
    (cp : Checkpoint) :
    (cp ∈ nearbyCheckpoints dist cps ↔ cp ∈ cps ∧ dist cp < 100) ∧
    (∀ d : ℚ, collectGate d = true ↔ d < 20) ∧
    collectGate (19.9 : ℚ) = true ∧ collectGate (20 : ℚ) = false := by
  refine ⟨?_, ?_, ?_, ?_⟩
  · simp [nearbyCheckpoints, List.mem_filter]
  · intro d
    simp [collectGate]
  · norm_num [collectGate]
  · norm_num [collectGate]

/-- C9: one roving tick is an elementwise map over the checkpoint list that
    preserves length; every isRoving and not collected checkpoint has lat and
    lng each perturbed independently by (random() - 0.5) * 1e-5 degrees with
    all other fields unchanged, and every collected or non-roving checkpoint
    is returned entirely unchanged. -/
theorem roving_tick_spec (rnd : ℕ → ℝ × ℝ) (cps : List Checkpoint) :
    (rovingTick rnd cps).length = cps.length ∧
    ∀ (i : ℕ) (cp : Checkpoint), cps[i]? = some cp →
      ∃ cp2, (rovingTick rnd cps)[i]? = some cp2 ∧
        cp2.id = cp.id ∧ cp2.question = cp.question ∧ cp2.options = cp.options ∧
        cp2.points = cp.points ∧ cp2.collected = cp.collected ∧
        cp2.isCustom = cp.isCustom ∧ cp2.isRoving = cp.isRoving ∧
        (cp.isRoving = true → cp.collected = false →
          cp2.lat = cp.lat + ((rnd i).1 - 0.5) * drift ∧
          cp2.lng = cp.lng + ((rnd i).2 - 0.5) * drift) ∧
        (cp.isRoving = false ∨ cp.collected = true →
          cp2.lat = cp.lat ∧ cp2.lng = cp.lng) := by
  constructor
  · simp [rovingTick]
  · intro i cp hcp
    refine ⟨tickOne (rnd i).1 (rnd i).2 cp, ?_, ?_⟩
    · simp [rovingTick, List.getElem?_mapIdx, hcp]
    · cases hR : cp.isRoving <;> cases hC : cp.collected <;>
        simp [tickOne, hR, hC]

/-- Witness for C9: a roving uncollected checkpoint at a concrete tick. -/
theorem roving_tick_spec_witness :
    ([sampleRoving] : List Checkpoint)[0]? = some sampleRoving ∧
    ∃ cp2, (rovingTick (fun _ => (1, 1)) [sampleRoving])[0]? = some cp2 ∧
      cp2.id = sampleRoving.id ∧ cp2.question = sampleRoving.question ∧
      cp2.options = sampleRoving.options ∧ cp2.points = sampleRoving.points ∧
      cp2.collected = sampleRoving.collected ∧ cp2.isCustom = sampleRoving.isCustom ∧
      cp2.isRoving = sampleRoving.isRoving ∧
      (sampleRoving.isRoving = true → sampleRoving.collected = false →
        cp2.lat = sampleRoving.lat + (((fun _ : ℕ => ((1 : ℝ), (1 : ℝ))) 0).1 - 0.5) * drift ∧
        cp2.lng = sampleRoving.lng + (((fun _ : ℕ => ((1 : ℝ), (1 : ℝ))) 0).2 - 0.5) * drift) ∧
      (sampleRoving.isRoving = false ∨ sampleRoving.collected = true →
        cp2.lat = sampleRoving.lat ∧ cp2.lng = sampleRoving.lng) :=
  ⟨rfl, (roving_tick_spec (fun _ => (1, 1)) [sampleRoving]).2 0 sampleRoving rfl⟩

theorem checkpointLE_trans : ∀ a b c : Located,
    checkpointLE a b → checkpointLE b c → checkpointLE a c := by
  intro a b c hab hbc
  cases hA : a.cp.collected <;> cases hB : b.cp.collected <;> cases hC : c.cp.collected <;>
    simp_all [checkpointLE] <;> linarith

theorem checkpointLE_total : ∀ a b : Located,
    checkpointLE a b || checkpointLE b a := by
  intro a b
  cases hA : a.cp.collected <;> cases hB : b.cp.collected <;>
    simp [checkpointLE, hA, hB] <;> exact le_total _ _

unseal List.merge List.mergeSort in
/-- C10: every sorted checkpoint list places collected checkpoints after all
    uncollected ones and orders each group ascending by distance (stated as a
    pairwise invariant on the output of sortedCheckpoints, together with the
    fact that sorting only permutes the deduplicated list), and the spec's
    fixture (dist 50 uncollected, dist 10 collected, dist 30 uncollected)
    sorts to ids 3, 1, 2. -/
theorem sorted_checkpoints_order :
    (∀ (dist : Checkpoint → ℚ) (cps : List Checkpoint),
      List.Pairwise (fun a b : Located =>
        (a.cp.collected = false ∧ b.cp.collected = true) ∨
        (a.cp.collected = b.cp.collected ∧ a.distance ≤ b.distance))
        (sortedCheckpoints dist cps) ∧
      (sortedCheckpoints dist cps).Perm
        ((dedupeById cps).map (fun cp => ⟨cp, dist cp⟩))) ∧
    (sortedCheckpoints exampleDist exampleCps).map (fun l => l.cp.id) = [3, 1, 2] := by
  constructor
  · intro dist cps
    constructor
    · have hs := List.sorted_mergeSort checkpointLE_trans checkpointLE_total
        ((dedupeById cps).map (fun cp => ⟨cp, dist cp⟩))
      unfold sortedCheckpoints
      refine hs.imp ?_
      intro a b hab
      cases hA : a.cp.collected
      · cases hB : b.cp.collected
        · refine Or.inr ⟨rfl, ?_⟩
          simpa [checkpointLE, hA, hB] using hab
        · exact Or.inl ⟨rfl, rfl⟩
      · cases hB : b.cp.collected
        · exfalso
          simp [checkpointLE, hA, hB] at hab
        · refine Or.inr ⟨rfl, ?_⟩
          simpa [checkpointLE, hA, hB] using hab
    · exact List.mergeSort_perm _ _
  · rfl

end GeoQuest
